import Mathlib

/-
  Verification of the yunify-k8s cluster-creation orchestrator
  (package app: runCreate and its helpers, the join-directive extractor
  GetKubeJoinFromOutput, the kubeadm command templating, and the api
  preset catalog).  Strings are modelled as Lean String (a list of
  characters); external collaborators (cloud SDK services, the SSH
  transport, the local filesystem) are modelled as an oracle structure
  whose fields give the response of each collaborator call, and the
  side-effecting calls an orchestration run performs are recorded in an
  event trace.
-/

namespace YunifyK8s

/-! ## Go string primitives used by GetKubeJoinFromOutput -/

/-- Go unicode.IsSpace: the Unicode White_Space property
    ('\t', '\n', vertical tab, form feed, '\r', ' ', NEL, NBSP and the
    higher space code points of the White_Space table). -/
def goIsSpace (c : Char) : Bool :=
  c.toNat = 9 || c.toNat = 10 || c.toNat = 11 || c.toNat = 12 || c.toNat = 13 ||
  c.toNat = 32 || c.toNat = 0x85 || c.toNat = 0xA0 || c.toNat = 0x1680 ||
  (0x2000 ≤ c.toNat && c.toNat ≤ 0x200A) || c.toNat = 0x2028 || c.toNat = 0x2029 ||
  c.toNat = 0x202F || c.toNat = 0x205F || c.toNat = 0x3000

/-- Go strings.TrimSpace on the character sequence: remove leading and
    trailing white space. -/
def goTrimSpace (l : List Char) : List Char :=
  ((l.dropWhile goIsSpace).reverse.dropWhile goIsSpace).reverse

/-- The pattern occurs in l starting at position i. -/
def occursAtB (l pat : List Char) (i : Nat) : Bool :=
  pat.isPrefixOf (l.drop i)

/-- The pattern occurs somewhere in l (Go strings.LastIndex would be ≥ 0). -/
def occursIn (pat l : List Char) : Prop :=
  ∃ i, occursAtB l pat i = true

/-- Search downward from position n for the largest occurrence position. -/
def goLastIndexAux (l pat : List Char) : Nat → Option Nat
  | 0 => if occursAtB l pat 0 then some 0 else none
  | i + 1 => if occursAtB l pat (i + 1) then some (i + 1) else goLastIndexAux l pat i

/-- Go strings.LastIndex: the position of the last occurrence of pat in l;
    none models Go's -1 (no occurrence). -/
def goLastIndex (l pat : List Char) : Option Nat :=
  goLastIndexAux l pat l.length

/-- The fixed marker token, the Go literal "kubeadm join". -/
def kubeadmJoinMarker : List Char := "kubeadm join".data

/-- The failure of join-directive extraction.  In the Go source the
    marker-absent case makes strings.LastIndex return -1 and the slice
    expression output[index:] panic with a bounds error, so no string is
    ever returned there; the total embedding exposes that failure branch
    as this explicit error value. -/
inductive ExtractErr where
  | joinDirectiveNotFound
  deriving DecidableEq

/-- GetKubeJoinFromOutput (app/create.go): trim the captured output, find
    the last occurrence of "kubeadm join", and return the remainder of the
    trimmed output from that position on.  The none branch is Go's panic on
    output[-1:] when the marker is absent. -/
def GetKubeJoinFromOutput (output : String) : Except ExtractErr String :=
  match goLastIndex (goTrimSpace output.data) kubeadmJoinMarker with
  | some i => Except.ok (String.mk ((goTrimSpace output.data).drop i))
  | none => Except.error ExtractErr.joinDirectiveNotFound

/-! ## Data model (pkg api, pkg instance, pkg tag) -/

/-- api.ErrorK8sVersionNotSupport (pkg/api/api.go). -/
def ErrorK8sVersionNotSupport : String := "Currently we do not support k8s version %s"

/-- api.SSHKeyName (pkg/api/api.go). -/
def SSHKeyName : String := "DO_NOT_REMOVE_K8S_KEY"

/-- api.CalicoCNI (pkg/api/api.go). -/
def CalicoCNI : String := "calico"

/-- api.FlannelCNI (pkg/api/api.go). -/
def FlannelCNI : String := "flannel"

/-- KubeconfigFilePath (app). -/
def KubeconfigFilePath : String := "/etc/kubernetes/admin.conf"

structure NetworkOption where
  cniName : String
  podNetWorkCIDR : String
  deriving DecidableEq

structure CreateClusterOption where
  clusterName : String
  kubernetesVersion : String
  nodeCount : Int
  vxNet : String
  instanceClass : Int
  zone : String
  networkOption : NetworkOption
  useExistKey : Bool
  scpKubeConfigToLocal : Bool
  localKubeConfigPath : String
  deriving DecidableEq

structure ImagesPreset where
  kubernetesVersion : String
  nodeImageID : String
  masterImageID : String
  nodeCPU : Int
  nodeMemory : Int
  masterCPU : Int
  masterMemory : Int
  cniYamlPath : String
  cniCmd : String
  deriving DecidableEq

/-- The catalog entry installed by the api package's init() for "1.13.1". -/
def preset1131 : ImagesPreset :=
  { kubernetesVersion := "1.13.1", nodeImageID := "img-rfubqmqn",
    masterImageID := "img-ybttnmjg", nodeCPU := 4, nodeMemory := 4096,
    masterCPU := 4, masterMemory := 4096, cniYamlPath := "/root/CNI",
    cniCmd := "cni.sh" }

/-- The catalog entry installed by the api package's init() for "1.15.2". -/
def preset1152 : ImagesPreset :=
  { kubernetesVersion := "1.15.2", nodeImageID := "img-kp1kue0l",
    masterImageID := "img-79giiut8", nodeCPU := 4, nodeMemory := 4096,
    masterCPU := 4, masterMemory := 4096, cniYamlPath := "/root/CNI",
    cniCmd := "cni.sh" }

/-- api.PresetKubernetes, the static catalog populated by the api package's
    init(): exactly the keys "1.13.1" and "1.15.2". -/
def PresetKubernetes (v : String) : Option ImagesPreset :=
  if v = "1.13.1" then some preset1131
  else if v = "1.15.2" then some preset1152
  else none

inductive Role where
  | master
  | node
  deriving DecidableEq

structure Instance where
  id : String
  ip : String
  deriving DecidableEq

structure CreateInstancesOption where
  name : String
  vxNet : String
  count : Int
  role : Role
  imagesPreset : ImagesPreset
  instanceClass : Int
  sshKeyID : String
  cniYamlPath : String
  deriving DecidableEq

structure Tag where
  tagID : String
  deriving DecidableEq

/-- An orchestration-run error: either an opaque error returned by an
    external collaborator, or one of the errors the orchestrator itself
    builds with fmt.Errorf (the carried arguments are the format
    arguments of the corresponding Errorf call). -/
inductive GoErr where
  | external (msg : String)
  | versionNotSupported (v : String)
  | provisioningFailed (errs : List GoErr)
  | missingPodCIDR
  | unsupportedCNI (cni : String)

/-- Result of a step that can return a value, fail with an error, or hit a
    Go runtime panic (out-of-range index or nil dereference). -/
inductive Outcome (α : Type) where
  | ok (a : α)
  | err (e : GoErr)
  | panic

/-- The observable collaborator calls of one orchestration run. -/
inductive Ev where
  | tagLookup (name : String)
  | tagCreate (name : String)
  | readPubKey
  | keyLookup (name : String)
  | keyCreate (name : String)
  | provision (role : Role) (count : Int)
  | tagInstances (tagID : String) (ids : List String)
  | sshRun (ip cmd : String)
  | writeFile (path content : String) (perm : Nat)
  deriving DecidableEq

/-- True unless the event is a local file write. -/
def Ev.notWrite : Ev → Bool
  | .writeFile _ _ _ => false
  | _ => true

/-- True unless the event is a tagging, remote-shell, or file-write effect. -/
def Ev.noEffect : Ev → Bool
  | .tagInstances _ _ => false
  | .sshRun _ _ => false
  | .writeFile _ _ _ => false
  | _ => true

/-- The external collaborators of one run (tag service, ssh-key service,
    instance service, SSH transport, local filesystem) as deterministic
    response oracles; each field gives the response of the corresponding
    collaborator call. -/
structure Env where
  getTagClusterByName : String → Except GoErr (Option Tag)
  createTag : String → Except GoErr String
  readPublicKeyFile : Except GoErr String
  getKeyPairByName : String → Except GoErr String
  createSSHKey : String → String → Except GoErr String
  createInstances : CreateInstancesOption → Except GoErr (List Instance)
  quickConnectAndRun : String → String → Except GoErr String
  tagInstances : String → List String → Except GoErr Unit
  writeFile : String → String → Nat → Except GoErr Unit

/-! ## The orchestrator (app: runCreate and helpers) -/

/-- tagName (app): fmt.Sprintf("K8S-Cluster-%s", name). -/
def tagName (name : String) : String := "K8S-Cluster-" ++ name

/-- The tag-resolution step at the top of runCreate: look the tag up by
    name; if present reuse its TagID, otherwise create it. -/
def resolveTag (env : Env) (clusterName : String) : Except GoErr String × List Ev :=
  match env.getTagClusterByName (tagName clusterName) with
  | .error e => (.error e, [.tagLookup (tagName clusterName)])
  | .ok (some id) => (.ok id.tagID, [.tagLookup (tagName clusterName)])
  | .ok none =>
    match env.createTag (tagName clusterName) with
    | .error e =>
      (.error e, [.tagLookup (tagName clusterName), .tagCreate (tagName clusterName)])
    | .ok tagID =>
      (.ok tagID, [.tagLookup (tagName clusterName), .tagCreate (tagName clusterName)])

/-- prepareSSHKey (app): read the local default public key; with
    useExistKey look up the well-known key name and reuse a non-empty
    result; otherwise create a new key from the local material. -/
def prepareSSHKey (env : Env) (useExistKey : Bool) : Except GoErr String × List Ev :=
  match env.readPublicKeyFile with
  | .error e => (.error e, [.readPubKey])
  | .ok output =>
    match useExistKey with
    | true =>
      match env.getKeyPairByName SSHKeyName with
      | .error e => (.error e, [.readPubKey, .keyLookup SSHKeyName])
      | .ok key =>
        if key ≠ "" then
          (.ok key, [.readPubKey, .keyLookup SSHKeyName])
        else
          match env.createSSHKey SSHKeyName output with
          | .error e =>
            (.error e, [.readPubKey, .keyLookup SSHKeyName, .keyCreate SSHKeyName])
          | .ok keyid =>
            (.ok keyid, [.readPubKey, .keyLookup SSHKeyName, .keyCreate SSHKeyName])
    | false =>
      match env.createSSHKey SSHKeyName output with
      | .error e => (.error e, [.readPubKey, .keyCreate SSHKeyName])
      | .ok keyid => (.ok keyid, [.readPubKey, .keyCreate SSHKeyName])

/-- The outcome of one provisioning goroutine: the errors and machine IDs
    it appended to the shared slices and its result slot, or a panic. -/
inductive TaskRes (α : Type) where
  | done (errs : List GoErr) (machines : List String) (val : α)
  | panicked

/-- The createMasterOpt struct literal of runCreate (CNIYamlPath is not
    set there, hence the Go zero value). -/
def createMasterOpt (opt : CreateClusterOption) (preset : ImagesPreset)
    (keyid : String) : CreateInstancesOption :=
  { name := opt.clusterName, vxNet := opt.vxNet, count := 1, role := .master,
    imagesPreset := preset, instanceClass := opt.instanceClass,
    sshKeyID := keyid, cniYamlPath := "" }

/-- The createNodesOpt struct literal of the node goroutine in runCreate. -/
def createNodesOpt (opt : CreateClusterOption) (preset : ImagesPreset)
    (keyid : String) : CreateInstancesOption :=
  { name := opt.clusterName, vxNet := opt.vxNet, count := opt.nodeCount,
    role := .node, imagesPreset := preset, instanceClass := opt.instanceClass,
    sshKeyID := keyid, cniYamlPath := "" }

/-- The master-provisioning goroutine body of runCreate: on an error append
    it to errs and return; on success take instances[0] — with a successful
    empty batch that index is out of range (Go panic). -/
def masterTask (env : Env) (o : CreateInstancesOption) : TaskRes (Option Instance) :=
  match env.createInstances o with
  | .error e => .done [e] [] none
  | .ok [] => .panicked
  | .ok (m :: _) => .done [] [m.id] (some m)

/-- The node-provisioning goroutine body of runCreate: on an error append
    it to errs and return; on success append each machine's ID to machines
    and each machine to nodes, in the order returned. -/
def nodesTask (env : Env) (o : CreateInstancesOption) : TaskRes (List Instance) :=
  match env.createInstances o with
  | .error e => .done [e] [] []
  | .ok insts => .done [] (insts.map Instance.id) insts

/-- generateKubeadmInitCmd (app): fail on an empty pod CIDR, then require
    the CNI name to be calico or flannel, else build the kubeadm init
    command string. -/
def generateKubeadmInitCmd (opt : NetworkOption) (version : String) :
    Except GoErr String :=
  if opt.podNetWorkCIDR = "" then
    .error .missingPodCIDR
  else if opt.cniName = CalicoCNI ∨ opt.cniName = FlannelCNI then
    .ok ("kubeadm init --pod-network-cidr=" ++ opt.podNetWorkCIDR ++
         " --kubernetes-version=v" ++ version)
  else
    .error (.unsupportedCNI opt.cniName)

/-- bootstrapMaster (app): generate the init command, run it on the master
    prefixed by the swap-disable directive, and extract the join directive
    from the captured output.  The extractor's failure branch is a Go
    panic (see GetKubeJoinFromOutput), which propagates. -/
def bootstrapMaster (env : Env) (master : Instance) (opt : CreateClusterOption) :
    Outcome String × List Ev :=
  match generateKubeadmInitCmd opt.networkOption opt.kubernetesVersion with
  | .error e => (.err e, [])
  | .ok cmd =>
    match env.quickConnectAndRun master.ip ("swapoff -a;" ++ cmd) with
    | .error e => (.err e, [.sshRun master.ip ("swapoff -a;" ++ cmd)])
    | .ok output =>
      match GetKubeJoinFromOutput output with
      | .ok join => (.ok join, [.sshRun master.ip ("swapoff -a;" ++ cmd)])
      | .error _ => (.panic, [.sshRun master.ip ("swapoff -a;" ++ cmd)])

/-- applyCNI (app): kubectl apply of the CNI manifest directory on the
    master over the remote shell. -/
def applyCNI (env : Env) (cni cniYamlPath masterip : String) :
    Except GoErr Unit × List Ev :=
  let cmd := "kubectl --kubeconfig=" ++ KubeconfigFilePath ++ " apply -f " ++
             cniYamlPath ++ "/" ++ cni ++ "/"
  match env.quickConnectAndRun masterip cmd with
  | .error e => (.error e, [.sshRun masterip cmd])
  | .ok _ => (.ok (), [.sshRun masterip cmd])

/-- The sequential node-join loop of runCreate: run the join directive
    (prefixed by the swap-disable directive) on each node in order; the
    first error is returned at once and ends the loop. -/
def joinNodes (env : Env) (nodes : List Instance) (joinCmd : String) :
    Except GoErr Unit × List Ev :=
  match nodes with
  | [] => (.ok (), [])
  | node :: rest =>
    match env.quickConnectAndRun node.ip ("swapoff -a; " ++ joinCmd) with
    | .error e => (.error e, [.sshRun node.ip ("swapoff -a; " ++ joinCmd)])
    | .ok _ =>
      let r := joinNodes env rest joinCmd
      (r.1, .sshRun node.ip ("swapoff -a; " ++ joinCmd) :: r.2)

/-- transferKubeconfigToLocal (app): cat the fixed remote admin.conf path
    on the master and write the captured bytes verbatim to
    localPath/kubeconfig with permissions 0600. -/
def transferKubeconfigToLocal (env : Env) (masterip localPath : String) :
    Except GoErr Unit × List Ev :=
  match env.quickConnectAndRun masterip "cat /etc/kubernetes/admin.conf" with
  | .error e => (.error e, [.sshRun masterip "cat /etc/kubernetes/admin.conf"])
  | .ok bytes =>
    match env.writeFile (localPath ++ "/kubeconfig") bytes 0o600 with
    | .error e =>
      (.error e, [.sshRun masterip "cat /etc/kubernetes/admin.conf",
                  .writeFile (localPath ++ "/kubeconfig") bytes 0o600])
    | .ok _ =>
      (.ok (), [.sshRun masterip "cat /etc/kubernetes/admin.conf",
                .writeFile (localPath ++ "/kubeconfig") bytes 0o600])

/-- runCreate (app): the cluster-creation orchestrator.  The two
    provisioning goroutines are modelled by their task outcomes joined at
    the WaitGroup barrier; the shared errs and machines slices are
    combined with the master goroutine's appends first (one fixed
    interleaving of the unsynchronized concurrent appends — the racy
    fine-grained interleavings are modelled separately by raceStep).
    The empty-errs test mirrors the source's if len(errs) != 0. -/
def runCreate (env : Env) (opt : CreateClusterOption) : Outcome Unit × List Ev :=
  match resolveTag env opt.clusterName with
  | (.error e, tr1) => (.err e, tr1)
  | (.ok tagID, tr1) =>
    match prepareSSHKey env opt.useExistKey with
    | (.error e, tr2) => (.err e, tr1 ++ tr2)
    | (.ok keyid, tr2) =>
      match PresetKubernetes opt.kubernetesVersion with
      | none => (.err (.versionNotSupported opt.kubernetesVersion), tr1 ++ tr2)
      | some preset =>
        let trP := tr1 ++ tr2 ++
          [Ev.provision Role.master 1, Ev.provision Role.node opt.nodeCount]
        match masterTask env (createMasterOpt opt preset keyid),
              nodesTask env (createNodesOpt opt preset keyid) with
        | .panicked, _ => (.panic, trP)
        | .done _ _ _, .panicked => (.panic, trP)
        | .done merrs mmachines mval, .done nerrs nmachines nodes =>
          match merrs ++ nerrs with
          | e :: rest => (.err (.provisioningFailed (e :: rest)), trP)
          | [] =>
            match mval with
            | none => (.panic, trP)
            | some master =>
              let machines := mmachines ++ nmachines
              match env.tagInstances tagID machines with
              | .error e => (.err e, trP ++ [.tagInstances tagID machines])
              | .ok _ =>
                let trT := trP ++ [Ev.tagInstances tagID machines]
                match bootstrapMaster env master opt with
                | (.panic, trB) => (.panic, trT ++ trB)
                | (.err e, trB) => (.err e, trT ++ trB)
                | (.ok joinCmd, trB) =>
                  match applyCNI env opt.networkOption.cniName
                      (createMasterOpt opt preset keyid).cniYamlPath master.ip with
                  | (.error e, trC) => (.err e, trT ++ trB ++ trC)
                  | (.ok _, trC) =>
                    match joinNodes env nodes joinCmd with
                    | (.error e, trJ) => (.err e, trT ++ trB ++ trC ++ trJ)
                    | (.ok _, trJ) =>
                      if opt.scpKubeConfigToLocal then
                        match transferKubeconfigToLocal env master.ip
                            opt.localKubeConfigPath with
                        | (.error e, trK) => (.err e, trT ++ trB ++ trC ++ trJ ++ trK)
                        | (.ok _, trK) => (.ok (), trT ++ trB ++ trC ++ trJ ++ trK)
                      else (.ok (), trT ++ trB ++ trC ++ trJ)

/-! ## Concrete oracles used as witnesses -/

/-- A bootstrap output that contains the join marker. -/
def bootstrapOutput : String :=
  "Your Kubernetes control-plane has initialized successfully!\nkubeadm join 10.0.0.1:6443 --token abc123\n"

/-- A fully successful collaborator oracle. -/
def envDemo : Env :=
  { getTagClusterByName := fun _ => .ok (some { tagID := "tagid-1" })
    createTag := fun _ => .ok "tagid-new"
    readPublicKeyFile := .ok "ssh-rsa AAAA"
    getKeyPairByName := fun _ => .ok "kp-1"
    createSSHKey := fun _ _ => .ok "kp-2"
    createInstances := fun o =>
      match o.role with
      | .master => .ok [{ id := "i-master", ip := "10.0.0.1" }]
      | .node => .ok [{ id := "i-node1", ip := "10.0.0.2" },
                      { id := "i-node2", ip := "10.0.0.3" }]
    quickConnectAndRun := fun _ _ => .ok bootstrapOutput
    tagInstances := fun _ _ => .ok ()
    writeFile := fun _ _ _ => .ok () }

/-- Like envDemo but the node batch fails while the master succeeds. -/
def envNodeFail : Env :=
  { envDemo with
    createInstances := fun o =>
      match o.role with
      | .master => .ok [{ id := "i-master", ip := "10.0.0.1" }]
      | .node => .error (.external "node quota exceeded") }

/-- Like envDemo but master provisioning succeeds with an empty batch. -/
def envEmptyMaster : Env :=
  { envDemo with
    createInstances := fun o =>
      match o.role with
      | .master => .ok []
      | .node => .ok [{ id := "i-node1", ip := "10.0.0.2" }] }

/-- An SSH oracle that refuses connections to one node address. -/
def envJoinFail : Env :=
  { envDemo with
    quickConnectAndRun := fun ip _ =>
      if ip = "10.0.0.5" then .error (.external "ssh: connection refused")
      else .ok "joined" }

/-- A demo creation request (flannel, two nodes, no credential export). -/
def optDemo : CreateClusterOption :=
  { clusterName := "demo", kubernetesVersion := "1.15.2", nodeCount := 2,
    vxNet := "vxnet-1", instanceClass := 0, zone := "pek3a",
    networkOption := { cniName := "flannel", podNetWorkCIDR := "10.244.0.0/16" },
    useExistKey := false, scpKubeConfigToLocal := false,
    localKubeConfigPath := "/tmp" }

/-- The demo request with a version absent from the catalog. -/
def optBadVersion : CreateClusterOption :=
  { optDemo with kubernetesVersion := "9.9.9" }

/-! ## In-memory tag backend (for the tag idempotence claim) -/

/-- Modelled from the spec: the tag-service backend (pkg tag, whose source
    is not part of this snapshot) as an in-memory association of tag names
    to tag IDs; FindTagByName returns the first tag carrying the name and
    CreateTag mints a fresh ID.  resolveTag's own branching above is the
    source code's. -/
def memTagFind (st : List (String × String)) (name : String) : Option Tag :=
  (st.find? (fun p => p.1 = name)).map (fun p => { tagID := p.2 })

/-- Modelled from the spec: the fresh tag ID CreateTag would mint on the
    given backend state. -/
def memFreshTagID (st : List (String × String)) : String :=
  "tag-" ++ toString st.length

/-- The collaborator oracle whose tag service reads the in-memory state. -/
def memTagEnv (st : List (String × String)) : Env :=
  { envDemo with
    getTagClusterByName := fun n => .ok (memTagFind st n)
    createTag := fun _ => .ok (memFreshTagID st) }

/-- Interpret the tag events of a trace against the in-memory backend:
    each CreateTag call appends its fresh (name, id) pair. -/
def applyTagEvents (st : List (String × String)) : List Ev → List (String × String)
  | [] => st
  | Ev.tagCreate name :: tr => applyTagEvents (st ++ [(name, memFreshTagID st)]) tr
  | _ :: tr => applyTagEvents st tr

/-- One stateful tag-resolution run: the result together with the backend
    state after the run. -/
def resolveTagMem (st : List (String × String)) (clusterName : String) :
    Except GoErr String × List (String × String) :=
  let r := resolveTag (memTagEnv st) clusterName
  (r.1, applyTagEvents st r.2)

/-! ## Fine-grained model of the shared-slice appends -/

/-- The shared errs slice of runCreate together with the per-goroutine
    loaded copy: both goroutines run errs = append(errs, err) with no
    mutex, and each such append is a load of the shared slice followed by
    a store of the extended copy. -/
structure RaceState where
  shared : List String
  reg1 : Option (List String)
  reg2 : Option (List String)
  deriving DecidableEq

/-- One memory access of one of the two provisioning goroutines. -/
inductive RaceStep where
  | load1
  | store1 (e : String)
  | load2
  | store2 (e : String)
  deriving DecidableEq

/-- The effect of one access on the shared state. -/
def raceStep (s : RaceState) : RaceStep → RaceState
  | .load1 => { s with reg1 := some s.shared }
  | .store1 e => { s with shared := (s.reg1.getD s.shared) ++ [e] }
  | .load2 => { s with reg2 := some s.shared }
  | .store2 e => { s with shared := (s.reg2.getD s.shared) ++ [e] }

/-- Execute an interleaving of the two goroutines' accesses. -/
def raceRun (steps : List RaceStep) (s : RaceState) : RaceState :=
  steps.foldl raceStep s

/-- The initial state: empty errs, nothing loaded. -/
def raceInit : RaceState := { shared := [], reg1 := none, reg2 := none }

end YunifyK8s

namespace YunifyK8s

/-! ## Lemmas about the string primitives -/

theorem isPrefixOf_iff_exists : ∀ (xs ys : List Char),
    xs.isPrefixOf ys = true ↔ ∃ t, ys = xs ++ t
  | [], ys => by simp [List.isPrefixOf]
  | x :: xs, [] => by simp [List.isPrefixOf]
  | x :: xs, y :: ys => by
    show (x == y && xs.isPrefixOf ys) = true ↔ _
    rw [Bool.and_eq_true, beq_iff_eq, isPrefixOf_iff_exists xs ys]
    constructor
    · rintro ⟨rfl, t, rfl⟩; exact ⟨t, rfl⟩
    · rintro ⟨t, h⟩
      rw [List.cons_append] at h
      cases h
      exact ⟨rfl, t, rfl⟩

theorem occursAtB_iff {l pat : List Char} {i : Nat} :
    occursAtB l pat i = true ↔ ∃ t, l.drop i = pat ++ t := by
  unfold occursAtB
  exact isPrefixOf_iff_exists pat (l.drop i)

theorem occursAtB_le_length {l pat : List Char} {j : Nat} (hp : pat ≠ [])
    (h : occursAtB l pat j = true) : j ≤ l.length := by
  by_contra hgt
  rw [occursAtB_iff] at h
  obtain ⟨t, ht⟩ := h
  rw [List.drop_eq_nil_of_le (by omega)] at ht
  cases pat with
  | nil => exact hp rfl
  | cons a as => simp at ht

theorem goLastIndexAux_some {l pat : List Char} : ∀ {n i : Nat},
    goLastIndexAux l pat n = some i →
    occursAtB l pat i = true ∧ i ≤ n ∧
      ∀ j, j ≤ n → occursAtB l pat j = true → j ≤ i := by
  intro n
  induction n with
  | zero =>
    intro i h
    unfold goLastIndexAux at h
    split at h
    next hocc1 =>
      cases h
      exact ⟨hocc1, Nat.le_refl 0, fun j hj _ => hj⟩
    next => cases h
  | succ n ih =>
    intro i h
    unfold goLastIndexAux at h
    split at h
    next hocc1 =>
      cases h
      exact ⟨hocc1, Nat.le_refl _, fun j hj _ => hj⟩
    next hneg =>
      obtain ⟨h1, h2, h3⟩ := ih h
      refine ⟨h1, Nat.le_succ_of_le h2, ?_⟩
      intro j hj hocc
      rcases Nat.eq_or_lt_of_le hj with heq | hlt
      · subst heq
        exact absurd hocc hneg
      · exact h3 j (by omega) hocc

theorem goLastIndexAux_none {l pat : List Char} : ∀ {n : Nat},
    goLastIndexAux l pat n = none →
    ∀ j, j ≤ n → occursAtB l pat j = false := by
  intro n
  induction n with
  | zero =>
    intro h j hj
    unfold goLastIndexAux at h
    split at h
    next => cases h
    next hneg =>
      have hj0 : j = 0 := Nat.le_zero.mp hj
      subst hj0
      exact Bool.not_eq_true _ |>.mp hneg
  | succ n ih =>
    intro h j hj
    unfold goLastIndexAux at h
    split at h
    next => cases h
    next hneg =>
      rcases Nat.eq_or_lt_of_le hj with heq | hlt
      · subst heq
        exact Bool.not_eq_true _ |>.mp hneg
      · exact ih h j (by omega)

theorem goLastIndex_spec_some {l pat : List Char} {i : Nat} (hp : pat ≠ [])
    (h : goLastIndex l pat = some i) :
    occursAtB l pat i = true ∧ ∀ j, occursAtB l pat j = true → j ≤ i := by
  obtain ⟨h1, _, h3⟩ := goLastIndexAux_some h
  refine ⟨h1, ?_⟩
  intro j hj
  exact h3 j (occursAtB_le_length hp hj) hj

theorem goLastIndex_spec_none {l pat : List Char} (hp : pat ≠ [])
    (h : goLastIndex l pat = none) : ¬ occursIn pat l := by
  rintro ⟨j, hj⟩
  have := goLastIndexAux_none h j (occursAtB_le_length hp hj)
  rw [hj] at this
  cases this

theorem goLastIndex_of_occursIn {l pat : List Char} (hp : pat ≠ [])
    (h : occursIn pat l) :
    ∃ i, goLastIndex l pat = some i ∧ occursAtB l pat i = true ∧
      ∀ j, occursAtB l pat j = true → j ≤ i := by
  cases hx : goLastIndex l pat with
  | none => exact absurd h (goLastIndex_spec_none hp hx)
  | some i =>
    obtain ⟨h1, h2⟩ := goLastIndex_spec_some hp hx
    exact ⟨i, rfl, h1, h2⟩

theorem occursIn_of_goLastIndex_some {l pat : List Char} {i : Nat}
    (h : goLastIndex l pat = some i) : occursIn pat l :=
  ⟨i, (goLastIndexAux_some h).1⟩

/-- goTrimSpace only removes characters at the two ends. -/
theorem goTrimSpace_decomp (l : List Char) :
    l = l.takeWhile goIsSpace ++ goTrimSpace l ++
        ((l.dropWhile goIsSpace).reverse.takeWhile goIsSpace).reverse := by
  have h1 : l.dropWhile goIsSpace =
      goTrimSpace l ++ ((l.dropWhile goIsSpace).reverse.takeWhile goIsSpace).reverse := by
    unfold goTrimSpace
    rw [← List.reverse_append, List.takeWhile_append_dropWhile, List.reverse_reverse]
  conv_lhs => rw [← List.takeWhile_append_dropWhile (p := goIsSpace) (l := l), h1]
  rw [List.append_assoc]

theorem occursIn_append {pat m : List Char} (hp : pat ≠ []) (a b : List Char)
    (h : occursIn pat m) : occursIn pat (a ++ m ++ b) := by
  obtain ⟨i, hi⟩ := h
  have hle : i ≤ m.length := occursAtB_le_length hp hi
  rw [occursAtB_iff] at hi
  obtain ⟨t, ht⟩ := hi
  refine ⟨a.length + i, ?_⟩
  rw [occursAtB_iff]
  refine ⟨t ++ b, ?_⟩
  rw [List.append_assoc, List.drop_append]
  rw [List.drop_append_of_le_length hle, ht, List.append_assoc]

/-- An occurrence in the trimmed text is an occurrence in the raw text. -/
theorem occursIn_of_occursIn_goTrimSpace {pat l : List Char} (hp : pat ≠ [])
    (h : occursIn pat (goTrimSpace l)) : occursIn pat l := by
  have hd := goTrimSpace_decomp l
  rw [hd]
  exact occursIn_append hp _ _ h

/-- dropWhile cannot eat past an element on which the predicate is false. -/
theorem dropWhile_append_keeps (p : Char → Bool) :
    ∀ (a : List Char) (c : Char) (t : List Char), p c = false →
      ∃ a2, (a ++ c :: t).dropWhile p = a2 ++ c :: t
  | [], c, t, hp => ⟨[], by simp [List.dropWhile_cons, hp]⟩
  | x :: a, c, t, hp => by
    rcases dropWhile_append_keeps p a c t hp with ⟨a2, ha⟩
    by_cases hx : p x = true
    · exact ⟨a2, by simp [List.dropWhile_cons, hx, ha]⟩
    · refine ⟨x :: a, ?_⟩
      simp [List.dropWhile_cons, hx]

/-- If the marker occurs in the raw text, it occurs in the trimmed text:
    the first and last marker characters ('k' and 'n') are not white space,
    so no occurrence straddles the trimmed-away all-space ends. -/
theorem occursIn_goTrimSpace_of_occursIn {l : List Char}
    (h : occursIn kubeadmJoinMarker l) : occursIn kubeadmJoinMarker (goTrimSpace l) := by
  obtain ⟨i, hi⟩ := h
  rw [occursAtB_iff] at hi
  obtain ⟨t, ht⟩ := hi
  have hl : l = l.take i ++ (kubeadmJoinMarker ++ t) := by
    conv_lhs => rw [← List.take_append_drop i l]
    rw [ht]
  have hk : goIsSpace 'k' = false := by decide
  have hmt : kubeadmJoinMarker ++ t = 'k' :: ("ubeadm join".data ++ t) := rfl
  rcases dropWhile_append_keeps goIsSpace (l.take i) 'k' ("ubeadm join".data ++ t) hk
    with ⟨a2, ha2⟩
  have hd : l.dropWhile goIsSpace = a2 ++ (kubeadmJoinMarker ++ t) := by
    rw [hl, hmt]
    exact ha2
  have hn : goIsSpace 'n' = false := by decide
  have hform : kubeadmJoinMarker.reverse ++ a2.reverse =
      'n' :: ("ioj mdaebuk".data ++ a2.reverse) := rfl
  have hrev : (l.dropWhile goIsSpace).reverse =
      t.reverse ++ (kubeadmJoinMarker.reverse ++ a2.reverse) := by
    rw [hd]
    simp [List.reverse_append, List.append_assoc]
  rcases dropWhile_append_keeps goIsSpace t.reverse 'n' ("ioj mdaebuk".data ++ a2.reverse) hn
    with ⟨a3, ha3⟩
  have hg : goTrimSpace l = a2 ++ (kubeadmJoinMarker ++ a3.reverse) := by
    unfold goTrimSpace
    rw [hrev, hform, ha3, ← hform]
    simp [List.reverse_append, List.append_assoc]
  exact ⟨a2.length, occursAtB_iff.mpr ⟨a3.reverse, by rw [hg, List.drop_left]⟩⟩

end YunifyK8s

namespace YunifyK8s

/-! ## Claim C1 -/

/-- C1: for every input string in which the marker token "kubeadm join"
    does not occur, join-directive extraction fails with the explicit
    joinDirectiveNotFound error (the total embedding of the Go slice-bound
    panic on output[-1:]) and never returns a truncated or arbitrary
    string; the non-error branch is reached only when the marker occurs in
    the input. -/
theorem extraction_fails_without_marker :
    (∀ s : String, ¬ occursIn kubeadmJoinMarker s.data →
      GetKubeJoinFromOutput s = Except.error ExtractErr.joinDirectiveNotFound) ∧
    (∀ (s r : String), GetKubeJoinFromOutput s = Except.ok r →
      occursIn kubeadmJoinMarker s.data) := by
  have hmark : kubeadmJoinMarker ≠ [] := by decide
  constructor
  · intro s hno
    unfold GetKubeJoinFromOutput
    cases hx : goLastIndex (goTrimSpace s.data) kubeadmJoinMarker with
    | none => rfl
    | some i =>
      exact absurd
        (occursIn_of_occursIn_goTrimSpace hmark (occursIn_of_goLastIndex_some hx)) hno
  · intro s r hok
    unfold GetKubeJoinFromOutput at hok
    cases hx : goLastIndex (goTrimSpace s.data) kubeadmJoinMarker with
    | none => rw [hx] at hok; simp at hok
    | some i =>
      exact occursIn_of_occursIn_goTrimSpace hmark (occursIn_of_goLastIndex_some hx)

/-- C1 witness: extraction explicitly fails on a concrete marker-free
    output. -/
theorem extraction_fails_without_marker_witness :
    GetKubeJoinFromOutput "no directive in this output" =
      Except.error ExtractErr.joinDirectiveNotFound :=
  extraction_fails_without_marker.1 "no directive in this output"
    (goLastIndex_spec_none (by decide) rfl)

/-! ## Claim C6 -/

/-- C6: for every input string containing the marker token, extraction
    returns the substring of the whitespace-trimmed input starting at the
    last occurrence of "kubeadm join"; in particular the spec's example
    output yields exactly the join directive. -/
theorem extraction_takes_last_marker_occurrence :
    (∀ s : String, occursIn kubeadmJoinMarker s.data →
      ∃ i, occursAtB (goTrimSpace s.data) kubeadmJoinMarker i = true ∧
        (∀ j, occursAtB (goTrimSpace s.data) kubeadmJoinMarker j = true → j ≤ i) ∧
        GetKubeJoinFromOutput s =
          Except.ok (String.mk ((goTrimSpace s.data).drop i))) ∧
    GetKubeJoinFromOutput "...\nkubeadm join 10.0.0.1:6443 --token abc\n" =
      Except.ok "kubeadm join 10.0.0.1:6443 --token abc" := by
  constructor
  · intro s hocc
    have hmark : kubeadmJoinMarker ≠ [] := by decide
    have htrim := occursIn_goTrimSpace_of_occursIn hocc
    obtain ⟨i, hsome, h1, h2⟩ := goLastIndex_of_occursIn hmark htrim
    refine ⟨i, h1, h2, ?_⟩
    unfold GetKubeJoinFromOutput
    rw [hsome]
  · rfl

/-- C6 witness: the general last-occurrence property applied to the spec's
    example output. -/
theorem extraction_takes_last_marker_occurrence_witness :
    ∃ i, occursAtB (goTrimSpace "...\nkubeadm join 10.0.0.1:6443 --token abc\n".data)
        kubeadmJoinMarker i = true ∧
      (∀ j, occursAtB (goTrimSpace "...\nkubeadm join 10.0.0.1:6443 --token abc\n".data)
          kubeadmJoinMarker j = true → j ≤ i) ∧
      GetKubeJoinFromOutput "...\nkubeadm join 10.0.0.1:6443 --token abc\n" =
        Except.ok (String.mk
          ((goTrimSpace "...\nkubeadm join 10.0.0.1:6443 --token abc\n".data).drop i)) :=
  extraction_takes_last_marker_occurrence.1 "...\nkubeadm join 10.0.0.1:6443 --token abc\n"
    (@occursIn_of_goLastIndex_some "...\nkubeadm join 10.0.0.1:6443 --token abc\n".data
      kubeadmJoinMarker 4 rfl)

/-! ## Claim C5 -/

/-- C5: generateKubeadmInitCmd returns exactly the kubeadm init command for
    calico or flannel with a non-empty pod CIDR (concretely the spec's
    example), fails with missingPodCIDR on an empty CIDR regardless of the
    CNI name, fails with unsupportedCNI on any other CNI name, and
    bootstrapMaster surfaces a generation failure before any remote
    execution (its event trace is empty). -/
theorem generateKubeadmInitCmd_spec :
    (∀ cni cidr v, cidr ≠ "" → (cni = CalicoCNI ∨ cni = FlannelCNI) →
      generateKubeadmInitCmd { cniName := cni, podNetWorkCIDR := cidr } v =
        Except.ok ("kubeadm init --pod-network-cidr=" ++ cidr ++
          " --kubernetes-version=v" ++ v)) ∧
    generateKubeadmInitCmd { cniName := "calico", podNetWorkCIDR := "10.244.0.0/16" }
        "1.15.2" =
      Except.ok
        "kubeadm init --pod-network-cidr=10.244.0.0/16 --kubernetes-version=v1.15.2" ∧
    (∀ cni v, generateKubeadmInitCmd { cniName := cni, podNetWorkCIDR := "" } v =
      Except.error GoErr.missingPodCIDR) ∧
    (∀ cni cidr v, cidr ≠ "" → cni ≠ CalicoCNI → cni ≠ FlannelCNI →
      generateKubeadmInitCmd { cniName := cni, podNetWorkCIDR := cidr } v =
        Except.error (GoErr.unsupportedCNI cni)) ∧
    (∀ (env : Env) (master : Instance) (opt : CreateClusterOption) (e : GoErr),
      generateKubeadmInitCmd opt.networkOption opt.kubernetesVersion = Except.error e →
      bootstrapMaster env master opt = (Outcome.err e, [])) := by
  refine ⟨?_, rfl, ?_, ?_, ?_⟩
  · intro cni cidr v hc hcni
    simp only [generateKubeadmInitCmd]
    rw [if_neg hc, if_pos hcni]
  · intro cni v
    simp [generateKubeadmInitCmd]
  · intro cni cidr v hc h1 h2
    simp only [generateKubeadmInitCmd]
    rw [if_neg hc, if_neg (by
      rintro (ha | hb)
      · exact h1 ha
      · exact h2 hb)]
  · intro env master opt e hgen
    unfold bootstrapMaster
    rw [hgen]

/-- C5 witness: the command and both failure modes at concrete inputs, and
    a concrete bootstrap attempt with an unsupported CNI performing no
    remote execution. -/
theorem generateKubeadmInitCmd_spec_witness :
    generateKubeadmInitCmd { cniName := "flannel", podNetWorkCIDR := "10.244.0.0/16" }
        "1.13.1" =
      Except.ok
        "kubeadm init --pod-network-cidr=10.244.0.0/16 --kubernetes-version=v1.13.1" ∧
    generateKubeadmInitCmd { cniName := "weave", podNetWorkCIDR := "10.244.0.0/16" }
        "1.15.2" =
      Except.error (GoErr.unsupportedCNI "weave") ∧
    generateKubeadmInitCmd { cniName := "calico", podNetWorkCIDR := "" } "1.15.2" =
      Except.error GoErr.missingPodCIDR ∧
    bootstrapMaster envDemo { id := "i-master", ip := "10.0.0.1" }
        { optDemo with networkOption := { cniName := "weave", podNetWorkCIDR := "10.1.0.0/16" } } =
      (Outcome.err (GoErr.unsupportedCNI "weave"), []) :=
  ⟨generateKubeadmInitCmd_spec.1 "flannel" "10.244.0.0/16" "1.13.1" (by decide)
      (Or.inr rfl),
   generateKubeadmInitCmd_spec.2.2.2.1 "weave" "10.244.0.0/16" "1.15.2" (by decide)
      (by decide) (by decide),
   generateKubeadmInitCmd_spec.2.2.1 "calico" "1.15.2",
   generateKubeadmInitCmd_spec.2.2.2.2 envDemo { id := "i-master", ip := "10.0.0.1" }
      { optDemo with networkOption := { cniName := "weave", podNetWorkCIDR := "10.1.0.0/16" } }
      (GoErr.unsupportedCNI "weave") rfl⟩

end YunifyK8s

namespace YunifyK8s

/-! ## Trace lemmas for the orchestrator helpers -/

theorem all_notWrite_of_noEffect (tr : List Ev) (h : tr.all Ev.noEffect = true) :
    tr.all Ev.notWrite = true := by
  rw [List.all_eq_true] at h ⊢
  intro e he
  have h2 := h e he
  cases e <;> simp [Ev.noEffect, Ev.notWrite] at *

theorem resolveTag_trace_noEffect (env : Env) (n : String) :
    ((resolveTag env n).2).all Ev.noEffect = true := by
  unfold resolveTag
  cases env.getTagClusterByName (tagName n) with
  | error e => rfl
  | ok o =>
    cases o with
    | none =>
      cases env.createTag (tagName n) with
      | error e => rfl
      | ok tagID => rfl
    | some t => rfl

theorem resolveTag_trace_head (env : Env) (n : String) :
    ((resolveTag env n).2).head? = some (Ev.tagLookup (tagName n)) := by
  unfold resolveTag
  cases env.getTagClusterByName (tagName n) with
  | error e => rfl
  | ok o =>
    cases o with
    | none =>
      cases env.createTag (tagName n) with
      | error e => rfl
      | ok tagID => rfl
    | some t => rfl

theorem prepareSSHKey_trace_noEffect (env : Env) (b : Bool) :
    ((prepareSSHKey env b).2).all Ev.noEffect = true := by
  unfold prepareSSHKey
  cases env.readPublicKeyFile with
  | error e => rfl
  | ok output =>
    dsimp only
    cases b with
    | false =>
      dsimp only
      cases env.createSSHKey SSHKeyName output with
      | error e => rfl
      | ok keyid => rfl
    | true =>
      dsimp only
      cases env.getKeyPairByName SSHKeyName with
      | error e => rfl
      | ok key =>
        dsimp only
        by_cases hk : key ≠ ""
        · rw [if_pos hk]; rfl
        · rw [if_neg hk]
          cases env.createSSHKey SSHKeyName output with
          | error e => rfl
          | ok keyid => rfl

theorem bootstrapMaster_trace_notWrite (env : Env) (master : Instance)
    (opt : CreateClusterOption) :
    ((bootstrapMaster env master opt).2).all Ev.notWrite = true := by
  unfold bootstrapMaster
  cases generateKubeadmInitCmd opt.networkOption opt.kubernetesVersion with
  | error e => rfl
  | ok cmd =>
    dsimp only
    cases env.quickConnectAndRun master.ip ("swapoff -a;" ++ cmd) with
    | error e => rfl
    | ok output =>
      dsimp only
      cases GetKubeJoinFromOutput output with
      | error e => rfl
      | ok join => rfl

theorem applyCNI_trace_notWrite (env : Env) (cni cniYamlPath masterip : String) :
    ((applyCNI env cni cniYamlPath masterip).2).all Ev.notWrite = true := by
  unfold applyCNI
  dsimp only
  cases env.quickConnectAndRun masterip
      ("kubectl --kubeconfig=" ++ KubeconfigFilePath ++ " apply -f " ++
       cniYamlPath ++ "/" ++ cni ++ "/") with
  | error e => rfl
  | ok o => rfl

theorem joinNodes_trace_notWrite (env : Env) (nodes : List Instance) (cmd : String) :
    ((joinNodes env nodes cmd).2).all Ev.notWrite = true := by
  induction nodes with
  | nil => rfl
  | cons node rest ih =>
    unfold joinNodes
    cases env.quickConnectAndRun node.ip ("swapoff -a; " ++ cmd) with
    | error e => rfl
    | ok o =>
      simp only [List.all_cons, Bool.and_eq_true]
      exact ⟨rfl, ih⟩

/-! ## Claim C4 -/

/-- C4: the node-join loop runs the join directive, prefixed by the
    swap-disable directive, on each node strictly in the order the nodes
    were returned by provisioning; the first failing node ends the loop at
    once with the error its remote execution produced, nodes before it
    were joined, and nodes after it are never attempted.  The trace lists
    exactly the executions performed, in order. -/
theorem joinNodes_sequential :
    (∀ (env : Env) (cmd : String) (pre : List Instance) (n : Instance)
        (post : List Instance) (e : GoErr),
      (∀ m ∈ pre, ∃ o, env.quickConnectAndRun m.ip ("swapoff -a; " ++ cmd) =
        Except.ok o) →
      env.quickConnectAndRun n.ip ("swapoff -a; " ++ cmd) = Except.error e →
      joinNodes env (pre ++ n :: post) cmd =
        (Except.error e,
         (pre ++ [n]).map (fun m => Ev.sshRun m.ip ("swapoff -a; " ++ cmd)))) ∧
    (∀ (env : Env) (cmd : String) (nodes : List Instance),
      (∀ m ∈ nodes, ∃ o, env.quickConnectAndRun m.ip ("swapoff -a; " ++ cmd) =
        Except.ok o) →
      joinNodes env nodes cmd =
        (Except.ok (), nodes.map (fun m => Ev.sshRun m.ip ("swapoff -a; " ++ cmd)))) := by
  constructor
  · intro env cmd pre
    induction pre with
    | nil =>
      intro n post e _ hn
      rw [List.nil_append]
      simp only [joinNodes]
      rw [hn]
      simp
    | cons m pre ih =>
      intro n post e hpre hn
      obtain ⟨o, ho⟩ := hpre m (by simp)
      have hrec := ih n post e (fun m2 hm2 => hpre m2 (by simp [hm2])) hn
      rw [List.cons_append]
      simp only [joinNodes]
      rw [ho]
      dsimp only
      rw [hrec]
      simp
  · intro env cmd nodes
    induction nodes with
    | nil => intro _; rfl
    | cons m rest ih =>
      intro h
      obtain ⟨o, ho⟩ := h m (by simp)
      have hrec := ih (fun m2 hm2 => h m2 (by simp [hm2]))
      simp only [joinNodes]
      rw [ho]
      dsimp only
      rw [hrec]
      simp

/-- C4 witness: for nodes A, B, C with B's join refused, A is joined, the
    loop stops with B's error, and C is never attempted. -/
theorem joinNodes_sequential_witness :
    joinNodes envJoinFail
        [{ id := "i-a", ip := "10.0.0.4" }, { id := "i-b", ip := "10.0.0.5" },
         { id := "i-c", ip := "10.0.0.6" }] "kubeadm join 10.0.0.1:6443" =
      (Except.error (GoErr.external "ssh: connection refused"),
       [Ev.sshRun "10.0.0.4" ("swapoff -a; " ++ "kubeadm join 10.0.0.1:6443"),
        Ev.sshRun "10.0.0.5" ("swapoff -a; " ++ "kubeadm join 10.0.0.1:6443")]) :=
  joinNodes_sequential.1 envJoinFail "kubeadm join 10.0.0.1:6443"
    [{ id := "i-a", ip := "10.0.0.4" }] { id := "i-b", ip := "10.0.0.5" }
    [{ id := "i-c", ip := "10.0.0.6" }] (GoErr.external "ssh: connection refused")
    (by
      intro m hm
      simp at hm
      subst hm
      exact ⟨"joined", rfl⟩)
    rfl

/-! ## Claim C10 -/

/-- C10: a successful master-provisioning result with a non-empty instance
    list makes the goroutine's instances[0] access in bounds (it completes
    normally with the head instance), while a successful empty result
    reaches the out-of-bounds branch — concretely, the master goroutine
    panics for every request against the empty-batch oracle, and the whole
    orchestration run surfaces that panic. -/
theorem masterTask_head_access :
    (∀ (env : Env) (o : CreateInstancesOption) (l : List Instance),
      env.createInstances o = Except.ok l → l ≠ [] →
      ∃ m rest, l = m :: rest ∧
        masterTask env o = TaskRes.done [] [m.id] (some m)) ∧
    (∀ (preset : ImagesPreset) (keyid : String),
      masterTask envEmptyMaster (createMasterOpt optDemo preset keyid) =
        TaskRes.panicked) ∧
    (runCreate envEmptyMaster optDemo).1 = Outcome.panic := by
  refine ⟨?_, fun _ _ => rfl, rfl⟩
  intro env o l h hne
  cases l with
  | nil => exact absurd rfl hne
  | cons m rest =>
    refine ⟨m, rest, rfl, ?_⟩
    unfold masterTask
    rw [h]

/-- C10 witness: the in-bounds access at the demo oracle's one-instance
    master batch. -/
theorem masterTask_head_access_witness :
    ∃ m rest, [Instance.mk "i-master" "10.0.0.1"] = m :: rest ∧
      masterTask envDemo (createMasterOpt optDemo preset1152 "kp-2") =
        TaskRes.done [] [m.id] (some m) :=
  masterTask_head_access.1 envDemo (createMasterOpt optDemo preset1152 "kp-2")
    [Instance.mk "i-master" "10.0.0.1"] rfl (by decide)

/-! ## Claim C8 -/

/-- C8 (the claim fails on the code): runCreate's two goroutines append to
    the shared errs slice with no mutex and no result channel.  With each
    unsynchronized append decomposed into its load and its store, the
    interleaving load1; load2; store1; store2 of raceStep loses the master
    goroutine's error, while the non-overlapping order preserves both, so
    the claimed every-interleaving no-lost-update property does not hold
    of the code's accumulation. -/
theorem unsynchronized_error_append_loses_update :
    (raceRun [RaceStep.load1, RaceStep.load2, RaceStep.store1 "master failed",
              RaceStep.store2 "node failed"] raceInit).shared = ["node failed"] ∧
    "master failed" ∉ (raceRun [RaceStep.load1, RaceStep.load2,
        RaceStep.store1 "master failed", RaceStep.store2 "node failed"]
        raceInit).shared ∧
    (raceRun [RaceStep.load1, RaceStep.store1 "master failed", RaceStep.load2,
              RaceStep.store2 "node failed"] raceInit).shared =
      ["master failed", "node failed"] := by
  refine ⟨rfl, ?_, rfl⟩
  decide

end YunifyK8s

namespace YunifyK8s

/-! ## Claim C2 -/

/-- C2 counterexample: with every tag and key collaborator succeeding and
    the unsupported version "9.9.9", the run does fail with the error
    naming the version, but its event trace contains the tag lookup and
    the key operations: the version check runs after tag resolution and
    SSH-key preparation, so the claim's "no tag is looked up or created
    and no key operation is performed" is false on the code. -/
theorem version_check_after_tag_and_key :
    runCreate envDemo optBadVersion =
      (Outcome.err (GoErr.versionNotSupported "9.9.9"),
       [Ev.tagLookup (tagName "demo"), Ev.readPubKey, Ev.keyCreate SSHKeyName]) ∧
    Ev.tagLookup (tagName "demo") ∈ (runCreate envDemo optBadVersion).2 ∧
    Ev.keyCreate SSHKeyName ∈ (runCreate envDemo optBadVersion).2 := by
  refine ⟨rfl, ?_, ?_⟩ <;> decide

/-- C2 amended: a request whose kubernetesVersion is not a catalog key
    fails with the error naming the offending version, provided tag
    resolution and SSH-key preparation succeed — but the validation runs
    after those two steps, so the returned trace is exactly the tag
    events followed by the key events (beginning with the tag lookup),
    and only then does the run stop. -/
theorem unsupported_version_fails_after_tag_key :
    ∀ (env : Env) (opt : CreateClusterOption) (tid : String) (tr1 : List Ev)
      (kid : String) (tr2 : List Ev),
      resolveTag env opt.clusterName = (Except.ok tid, tr1) →
      prepareSSHKey env opt.useExistKey = (Except.ok kid, tr2) →
      PresetKubernetes opt.kubernetesVersion = none →
      runCreate env opt =
        (Outcome.err (GoErr.versionNotSupported opt.kubernetesVersion), tr1 ++ tr2) ∧
      tr1.head? = some (Ev.tagLookup (tagName opt.clusterName)) := by
  intro env opt tid tr1 kid tr2 h1 h2 h3
  constructor
  · unfold runCreate
    rw [h1]
    dsimp only
    rw [h2]
    dsimp only
    rw [h3]
  · have hh := resolveTag_trace_head env opt.clusterName
    rw [h1] at hh
    exact hh

/-- C2 witness: the amended statement at the demo oracle and the version
    "9.9.9". -/
theorem unsupported_version_fails_after_tag_key_witness :
    runCreate envDemo optBadVersion =
      (Outcome.err (GoErr.versionNotSupported "9.9.9"),
       [Ev.tagLookup (tagName "demo")] ++ [Ev.readPubKey, Ev.keyCreate SSHKeyName]) ∧
    [Ev.tagLookup (tagName "demo")].head? = some (Ev.tagLookup (tagName "demo")) :=
  unsupported_version_fails_after_tag_key envDemo optBadVersion "tagid-1"
    [Ev.tagLookup (tagName "demo")] "kp-2" [Ev.readPubKey, Ev.keyCreate SSHKeyName]
    rfl rfl rfl

/-! ## Claim C3 -/

/-- C3: if at least one of the two provisioning goroutines recorded an
    error, after the barrier runCreate returns provisioningFailed
    aggregating all collected errors — even when the other goroutine
    succeeded — and the whole run performs no tagging, bootstrap, CNI
    apply, node join, or file write (its trace has no such effect). -/
theorem barrier_partial_failure_aborts :
    ∀ (env : Env) (opt : CreateClusterOption) (tid : String) (tr1 : List Ev)
      (kid : String) (tr2 : List Ev) (preset : ImagesPreset)
      (me : List GoErr) (mm : List String) (mv : Option Instance)
      (ne : List GoErr) (nm : List String) (nv : List Instance),
      resolveTag env opt.clusterName = (Except.ok tid, tr1) →
      prepareSSHKey env opt.useExistKey = (Except.ok kid, tr2) →
      PresetKubernetes opt.kubernetesVersion = some preset →
      masterTask env (createMasterOpt opt preset kid) = TaskRes.done me mm mv →
      nodesTask env (createNodesOpt opt preset kid) = TaskRes.done ne nm nv →
      me ++ ne ≠ [] →
      runCreate env opt =
        (Outcome.err (GoErr.provisioningFailed (me ++ ne)),
         tr1 ++ tr2 ++
           [Ev.provision Role.master 1, Ev.provision Role.node opt.nodeCount]) ∧
      ((runCreate env opt).2).all Ev.noEffect = true := by
  intro env opt tid tr1 kid tr2 preset me mm mv ne nm nv h1 h2 h3 hm hn herr
  have hrun : runCreate env opt =
      (Outcome.err (GoErr.provisioningFailed (me ++ ne)),
       tr1 ++ tr2 ++
         [Ev.provision Role.master 1, Ev.provision Role.node opt.nodeCount]) := by
    unfold runCreate
    rw [h1]
    dsimp only
    rw [h2]
    dsimp only
    rw [h3]
    dsimp only
    rw [hm, hn]
    dsimp only
    cases hx : me ++ ne with
    | nil => exact absurd hx herr
    | cons e rest => rfl
  refine ⟨hrun, ?_⟩
  rw [hrun]
  have e1 := resolveTag_trace_noEffect env opt.clusterName
  rw [h1] at e1
  dsimp only at e1
  have e2 := prepareSSHKey_trace_noEffect env opt.useExistKey
  rw [h2] at e2
  dsimp only at e2
  simp [List.all_append, e1, e2, Ev.noEffect]

/-- C3 witness: master provisioning succeeds, node provisioning fails, and
    the demo run aborts with the aggregated error after the barrier with
    no tagging or remote execution in its trace. -/
theorem barrier_partial_failure_aborts_witness :
    runCreate envNodeFail optDemo =
      (Outcome.err (GoErr.provisioningFailed [GoErr.external "node quota exceeded"]),
       [Ev.tagLookup (tagName "demo")] ++ [Ev.readPubKey, Ev.keyCreate SSHKeyName] ++
         [Ev.provision Role.master 1, Ev.provision Role.node 2]) ∧
    ((runCreate envNodeFail optDemo).2).all Ev.noEffect = true :=
  barrier_partial_failure_aborts envNodeFail optDemo "tagid-1"
    [Ev.tagLookup (tagName "demo")] "kp-2" [Ev.readPubKey, Ev.keyCreate SSHKeyName]
    preset1152 [] ["i-master"] (some { id := "i-master", ip := "10.0.0.1" })
    [GoErr.external "node quota exceeded"] [] []
    rfl rfl rfl rfl rfl (by simp)

/-! ## Claim C7 -/

/-- C7: the tag name is deterministically the fixed prefix plus the
    cluster name; when a tag with that name already exists, resolution
    returns its existing tagID without any CreateTag call and leaves the
    backend unchanged, so resolving twice yields the same tagID both
    times and creates no duplicate tag. -/
theorem resolveTag_idempotent :
    (∀ n : String, tagName n = "K8S-Cluster-" ++ n) ∧
    (∀ (st : List (String × String)) (n : String) (t : Tag),
      memTagFind st (tagName n) = some t →
      resolveTagMem st n = (Except.ok t.tagID, st) ∧
      Ev.tagCreate (tagName n) ∉ (resolveTag (memTagEnv st) n).2 ∧
      resolveTagMem (resolveTagMem st n).2 n = (Except.ok t.tagID, st)) := by
  refine ⟨fun n => rfl, ?_⟩
  intro st n t hfind
  have hfield : (memTagEnv st).getTagClusterByName (tagName n) =
      Except.ok (memTagFind st (tagName n)) := rfl
  have hres : resolveTag (memTagEnv st) n =
      (Except.ok t.tagID, [Ev.tagLookup (tagName n)]) := by
    unfold resolveTag
    rw [hfield, hfind]
  have h1st : resolveTagMem st n = (Except.ok t.tagID, st) := by
    unfold resolveTagMem
    dsimp only
    rw [hres]
    rfl
  refine ⟨h1st, ?_, ?_⟩
  · rw [hres]
    simp
  · rw [h1st]
    exact h1st

/-- C7 witness: a backend already holding the demo cluster's tag returns
    the stored ID twice without any state change. -/
theorem resolveTag_idempotent_witness :
    tagName "demo" = "K8S-Cluster-" ++ "demo" ∧
    (resolveTagMem [("K8S-Cluster-demo", "tag-0")] "demo" =
        (Except.ok "tag-0", [("K8S-Cluster-demo", "tag-0")]) ∧
      Ev.tagCreate (tagName "demo") ∉
        (resolveTag (memTagEnv [("K8S-Cluster-demo", "tag-0")]) "demo").2 ∧
      resolveTagMem (resolveTagMem [("K8S-Cluster-demo", "tag-0")] "demo").2 "demo" =
        (Except.ok "tag-0", [("K8S-Cluster-demo", "tag-0")])) :=
  ⟨resolveTag_idempotent.1 "demo",
   resolveTag_idempotent.2 [("K8S-Cluster-demo", "tag-0")] "demo"
     { tagID := "tag-0" } rfl⟩

end YunifyK8s

namespace YunifyK8s

/-! ## Claim C9 -/

/-- C9: credential export reads the fixed remote path
    /etc/kubernetes/admin.conf on the master via the remote shell and
    writes exactly the retrieved bytes, verbatim, to localPath/kubeconfig
    with owner-only permissions 0600; when export is not requested a whole
    orchestration run performs no local file write at all; and a fully
    successful run with export requested does perform exactly that write
    and ends successfully. -/
theorem kubeconfig_export_verbatim :
    (∀ (env : Env) (masterip localPath bytes : String),
      env.quickConnectAndRun masterip "cat /etc/kubernetes/admin.conf" =
        Except.ok bytes →
      env.writeFile (localPath ++ "/kubeconfig") bytes 0o600 = Except.ok () →
      transferKubeconfigToLocal env masterip localPath =
        (Except.ok (),
         [Ev.sshRun masterip "cat /etc/kubernetes/admin.conf",
          Ev.writeFile (localPath ++ "/kubeconfig") bytes 0o600])) ∧
    (∀ (env : Env) (opt : CreateClusterOption),
      opt.scpKubeConfigToLocal = false →
      ((runCreate env opt).2).all Ev.notWrite = true) ∧
    Ev.writeFile ("/tmp" ++ "/kubeconfig") bootstrapOutput 0o600 ∈
      (runCreate envDemo { optDemo with scpKubeConfigToLocal := true }).2 ∧
    (runCreate envDemo { optDemo with scpKubeConfigToLocal := true }).1 =
      Outcome.ok () := by
  refine ⟨?_, ?_, by decide, rfl⟩
  · intro env masterip localPath bytes hcat hwrite
    unfold transferKubeconfigToLocal
    rw [hcat]
    dsimp only
    rw [hwrite]
  · intro env opt hflag
    unfold runCreate
    rcases hr1 : resolveTag env opt.clusterName with ⟨r1, tr1⟩
    have htr1 : tr1.all Ev.notWrite = true := by
      have h := resolveTag_trace_noEffect env opt.clusterName
      rw [hr1] at h
      exact all_notWrite_of_noEffect _ h
    cases r1 with
    | error e => exact htr1
    | ok tid =>
      dsimp only
      rcases hr2 : prepareSSHKey env opt.useExistKey with ⟨r2, tr2⟩
      have htr2 : tr2.all Ev.notWrite = true := by
        have h := prepareSSHKey_trace_noEffect env opt.useExistKey
        rw [hr2] at h
        exact all_notWrite_of_noEffect _ h
      cases r2 with
      | error e => simp [List.all_append, htr1, htr2]
      | ok kid =>
        dsimp only
        cases hp : PresetKubernetes opt.kubernetesVersion with
        | none => simp [List.all_append, htr1, htr2]
        | some preset =>
          dsimp only
          cases hmt : masterTask env (createMasterOpt opt preset kid) with
          | panicked => simp [List.all_append, htr1, htr2, Ev.notWrite]
          | done me mm mv =>
            cases hnt : nodesTask env (createNodesOpt opt preset kid) with
            | panicked => simp [List.all_append, htr1, htr2, Ev.notWrite]
            | done ne nm nodes =>
              dsimp only
              cases me ++ ne with
              | cons e rest => simp [List.all_append, htr1, htr2, Ev.notWrite]
              | nil =>
                dsimp only
                cases mv with
                | none => simp [List.all_append, htr1, htr2, Ev.notWrite]
                | some master =>
                  dsimp only
                  cases env.tagInstances tid (mm ++ nm) with
                  | error e => simp [List.all_append, htr1, htr2, Ev.notWrite]
                  | ok u =>
                    dsimp only
                    rcases hb : bootstrapMaster env master opt with ⟨rb, trB⟩
                    have htrB : trB.all Ev.notWrite = true := by
                      have h := bootstrapMaster_trace_notWrite env master opt
                      rw [hb] at h
                      exact h
                    cases rb with
                    | panic => simp [List.all_append, htr1, htr2, htrB, Ev.notWrite]
                    | err e => simp [List.all_append, htr1, htr2, htrB, Ev.notWrite]
                    | ok joinCmd =>
                      dsimp only
                      rcases hc : applyCNI env opt.networkOption.cniName
                          (createMasterOpt opt preset kid).cniYamlPath master.ip
                        with ⟨rc, trC⟩
                      have htrC : trC.all Ev.notWrite = true := by
                        have h := applyCNI_trace_notWrite env opt.networkOption.cniName
                          (createMasterOpt opt preset kid).cniYamlPath master.ip
                        rw [hc] at h
                        exact h
                      cases rc with
                      | error e =>
                        simp [List.all_append, htr1, htr2, htrB, htrC, Ev.notWrite]
                      | ok u2 =>
                        dsimp only
                        rcases hj : joinNodes env nodes joinCmd with ⟨rj, trJ⟩
                        have htrJ : trJ.all Ev.notWrite = true := by
                          have h := joinNodes_trace_notWrite env nodes joinCmd
                          rw [hj] at h
                          exact h
                        cases rj with
                        | error e =>
                          simp [List.all_append, htr1, htr2, htrB, htrC, htrJ,
                            Ev.notWrite]
                        | ok u3 =>
                          simp [hflag, List.all_append, htr1, htr2, htrB, htrC,
                            htrJ, Ev.notWrite]

/-- C9 witness: the verbatim write at the demo oracle, and the demo run
    (export not requested) writing no local file. -/
theorem kubeconfig_export_verbatim_witness :
    transferKubeconfigToLocal envDemo "10.0.0.1" "/tmp" =
      (Except.ok (),
       [Ev.sshRun "10.0.0.1" "cat /etc/kubernetes/admin.conf",
        Ev.writeFile ("/tmp" ++ "/kubeconfig") bootstrapOutput 0o600]) ∧
    ((runCreate envDemo optDemo).2).all Ev.notWrite = true :=
  ⟨kubeconfig_export_verbatim.1 envDemo "10.0.0.1" "/tmp" bootstrapOutput rfl rfl,
   kubeconfig_export_verbatim.2.1 envDemo optDemo rfl⟩

end YunifyK8s
